import Mathlib

/-!
Verification of the session and document lifecycle coordinator of the
primo-chat repository (files app.py, config.py, database.py), as a shallow
embedding in Lean 4.

Modelling conventions:
* SQLite tables become lists of row structures; CURRENT_TIMESTAMP becomes an
  explicit numeric parameter.
* Remote OpenAI calls become oracle records: a Boolean field tells whether the
  call would succeed (rather than raise a Python exception) and a value field
  gives the value the remote service would return.
* Python strings are sequences of characters; the string operations of the
  source (slicing, lower-casing, splitting) are modelled on the character list
  backing a Lean String, so that every definition evaluates by kernel
  reduction.
* Human-readable Python message strings whose exact text depends on runtime
  formatting (float formatting, the text of an exception) are abstracted to
  constructors or fixed strings that keep the branch structure of the source.
* Python truthiness of optional strings (None and the empty string are falsy)
  is modelled by the function truthy.
-/

/-- Configuration values from config.py relevant to the verified code paths.
Defaults mirror the environment-variable defaults in Config.__init__. -/
structure Config where
  organization_name : String
  vector_store_name : String
  vector_store_expires_days : Nat
  max_file_size_mb : Nat
  allowed_file_types : List String
  max_chat_history : Nat
  chat_title_length : Nat
deriving Repr, DecidableEq

/-- The configuration obtained from the defaults in config.py when no
environment variable overrides them. -/
def defaultConfig : Config where
  organization_name := "default"
  vector_store_name := "default-knowledge-base"
  vector_store_expires_days := 365
  max_file_size_mb := 20
  allowed_file_types := ["pdf", "txt", "md", "docx", "doc", "rtf", "html", "json", "csv", "xml"]
  max_chat_history := 50
  chat_title_length := 50

/-- Python slice text[:k] on a character list: a nonnegative bound keeps the
first k characters, a negative bound drops the last -k characters (clamped at
the empty list). -/
def pySliceTo (text : List Char) (k : Int) : List Char :=
  if 0 ≤ k then text.take k.toNat
  else text.take (text.length - (-k).toNat)

/-- truncate_text from config.py lines 173-177: returns text unchanged when it
fits in max_length characters, otherwise keeps the first max_length - 3
characters (Python slice semantics) and appends the three-character ellipsis
marker. -/
def truncate_text (text : String) (max_length : Int) : String :=
  if (text.data.length : Int) ≤ max_length then text
  else String.mk (pySliceTo text.data (max_length - 3) ++ "...".data)

/-- Python str.split(sep) for a one-character separator: splits at every
occurrence, keeping empty pieces ("a..b" gives ["a", "", "b"]). -/
def splitOnChar (sep : Char) : List Char → List (List Char)
  | [] => [[]]
  | c :: cs =>
    match splitOnChar sep cs with
    | [] => if c == sep then [[], []] else [[c]]
    | w :: ws => if c == sep then [] :: w :: ws else (c :: w) :: ws

/-- The extension computation inside validate_file_upload (config.py line
156): filename.lower().split('.')[-1] when the filename contains a dot,
otherwise the empty string. -/
def pyExtension (filename : String) : String :=
  if filename.data.contains '.' then
    String.mk ((splitOnChar '.' (filename.data.map Char.toLower)).getLastD [])
  else ""

/-- The reason part of the verdict of validate_file_upload. The Python source
returns formatted strings; each constructor carries the data interpolated into
the corresponding string. -/
inductive UploadVerdictReason where
  /-- File size (file_size bytes) exceeds maximum allowed size (max_mb MB). -/
  | oversize (file_size : Nat) (max_mb : Nat)
  /-- File type (the computed extension) not allowed; supported types listed. -/
  | disallowedType (ext : String) (allowed : List String)
  /-- The verdict string for an accepted file. -/
  | valid
deriving Repr, DecidableEq

/-- validate_file_upload from config.py lines 148-160: size ceiling checked
first, then the extension allow-list; pure function of filename, size and the
configuration. -/
def validate_file_upload (cfg : Config) (filename : String) (file_size : Nat) :
    Bool × UploadVerdictReason :=
  let max_size_bytes := cfg.max_file_size_mb * 1024 * 1024
  if max_size_bytes < file_size then
    (false, UploadVerdictReason.oversize file_size cfg.max_file_size_mb)
  else
    let file_extension := pyExtension filename
    if cfg.allowed_file_types.contains file_extension then
      (true, UploadVerdictReason.valid)
    else
      (false, UploadVerdictReason.disallowedType file_extension cfg.allowed_file_types)

/-- Claim C5: validate_file_upload rejects with an oversize reason whenever the
size exceeds the configured byte ceiling; below the ceiling it rejects with a
disallowed-type reason whenever the computed extension is outside the
allow-list and accepts otherwise; and it is a pure function of
(filename, size, config), so identical inputs yield identical verdicts. -/
theorem validate_file_upload_spec (cfg : Config) (filename : String) (file_size : Nat) :
    (cfg.max_file_size_mb * 1024 * 1024 < file_size →
      validate_file_upload cfg filename file_size =
        (false, UploadVerdictReason.oversize file_size cfg.max_file_size_mb)) ∧
    (file_size ≤ cfg.max_file_size_mb * 1024 * 1024 →
      cfg.allowed_file_types.contains (pyExtension filename) = false →
      validate_file_upload cfg filename file_size =
        (false, UploadVerdictReason.disallowedType (pyExtension filename) cfg.allowed_file_types)) ∧
    (file_size ≤ cfg.max_file_size_mb * 1024 * 1024 →
      cfg.allowed_file_types.contains (pyExtension filename) = true →
      validate_file_upload cfg filename file_size = (true, UploadVerdictReason.valid)) ∧
    validate_file_upload cfg filename file_size = validate_file_upload cfg filename file_size := by
  refine ⟨?_, ?_, ?_, rfl⟩
  · intro h
    simp [validate_file_upload, h]
  · intro h hext
    have hm : pyExtension filename ∉ cfg.allowed_file_types := by
      simpa using hext
    simp [validate_file_upload, Nat.not_lt.mpr h, hm]
  · intro h hext
    have hm : pyExtension filename ∈ cfg.allowed_file_types := by
      simpa using hext
    simp [validate_file_upload, Nat.not_lt.mpr h, hm]

/-- Witness for C5: the default configuration accepts a 2 MB PDF. -/
theorem validate_file_upload_spec_witness :
    validate_file_upload defaultConfig "notes.pdf" 2097152 =
      (true, UploadVerdictReason.valid) :=
  (validate_file_upload_spec defaultConfig "notes.pdf" 2097152).2.2.1
    (by decide) (by decide)

/-- Claim C9: a filename with no dot yields the empty extension, so (when the
empty string is not itself in the allow-list) the file is rejected with the
disallowed-type reason whenever its size is within the ceiling; when the size
exceeds the ceiling the oversize reason is returned first. -/
theorem validate_no_dot_filename (cfg : Config) (filename : String) (file_size : Nat) :
    filename.data.contains '.' = false →
    pyExtension filename = "" ∧
    (file_size ≤ cfg.max_file_size_mb * 1024 * 1024 →
      cfg.allowed_file_types.contains "" = false →
      validate_file_upload cfg filename file_size =
        (false, UploadVerdictReason.disallowedType "" cfg.allowed_file_types)) ∧
    (cfg.max_file_size_mb * 1024 * 1024 < file_size →
      validate_file_upload cfg filename file_size =
        (false, UploadVerdictReason.oversize file_size cfg.max_file_size_mb)) := by
  intro hdot
  have hd : '.' ∉ filename.data := by simpa using hdot
  have hext : pyExtension filename = "" := by
    simp [pyExtension, hd]
  refine ⟨hext, ?_, ?_⟩
  · intro hsz hmem
    have h2 := (validate_file_upload_spec cfg filename file_size).2.1 hsz
      (by rw [hext]; exact hmem)
    simpa [hext] using h2
  · intro hsz
    exact (validate_file_upload_spec cfg filename file_size).1 hsz

/-- Witness for C9: a dotless filename of small size is rejected by the default
configuration with the disallowed-type reason for the empty extension. -/
theorem validate_no_dot_filename_witness :
    pyExtension "README" = "" ∧
    validate_file_upload defaultConfig "README" 5 =
      (false, UploadVerdictReason.disallowedType "" defaultConfig.allowed_file_types) := by
  have h := validate_no_dot_filename defaultConfig "README" 5 (by decide)
  exact ⟨h.1, h.2.1 (by decide) (by decide)⟩

/-!
Record Store: the SQLite tables of database.py as lists of rows. Row field
names follow the column names of the CREATE TABLE statements.
-/

/-- A row of the documents table (database.py lines 27-38). -/
structure DocumentRow where
  id : String
  filename : String
  openai_file_id : String
  vector_store_id : String
  upload_date : Nat
  file_size : Nat
  status : String
  uploaded_by : Option String
deriving Repr, DecidableEq

/-- A row of the chat_sessions table (database.py lines 41-53). -/
structure ChatSessionRow where
  session_id : String
  user_id : Option String
  thread_id : Option String
  assistant_id : Option String
  vector_store_id : Option String
  created_at : Nat
  last_activity : Nat
  title : String
  status : String
deriving Repr, DecidableEq

/-- A row of the messages table (database.py lines 56-67). -/
structure MessageRow where
  id : Nat
  session_id : String
  role : String
  content : String
  timestamp : Nat
  openai_message_id : Option String
  metadata : Option String
deriving Repr, DecidableEq

/-- A row of the vector_stores table (database.py lines 82-90). The
document_count column is an integer counter that delete_document decrements,
so it is modelled as Int. -/
structure VectorStoreRow where
  vector_store_id : String
  name : String
  created_at : Nat
  document_count : Int
  status : String
deriving Repr, DecidableEq

/-- The per-organization SQLite database of database.py as a value. The users
table takes no part in the verified claims and is omitted. -/
structure ChatDatabase where
  documents : List DocumentRow
  chat_sessions : List ChatSessionRow
  messages : List MessageRow
  vector_stores : List VectorStoreRow
deriving Repr, DecidableEq

/-- Insertion step of the sorting used to model SQL ORDER BY. -/
def insertLe (le : α → α → Bool) (x : α) : List α → List α
  | [] => [x]
  | y :: ys => if le x y then x :: y :: ys else y :: insertLe le x ys

/-- Insertion sort used to model SQL ORDER BY; only sortedness of the result
matters to the claims, which holds for any correct sort. -/
def sortLe (le : α → α → Bool) : List α → List α
  | [] => []
  | x :: xs => insertLe le x (sortLe le xs)

/-- SQL ORDER BY key DESC. -/
def sqlOrderByDesc (key : α → Nat) (l : List α) : List α :=
  sortLe (fun a b => decide (key b ≤ key a)) l

/-- SQL ORDER BY key ASC. -/
def sqlOrderByAsc (key : α → Nat) (l : List α) : List α :=
  sortLe (fun a b => decide (key a ≤ key b)) l

theorem mem_insertLe (le : α → α → Bool) (x : α) (l : List α) (a : α) :
    a ∈ insertLe le x l ↔ a = x ∨ a ∈ l := by
  induction l with
  | nil => simp [insertLe]
  | cons y ys ih =>
    simp only [insertLe]
    split
    · simp
    · simp [ih]
      tauto

theorem pairwise_insertLe (le : α → α → Bool)
    (htot : ∀ a b, le a b = true ∨ le b a = true)
    (htrans : ∀ a b c, le a b = true → le b c = true → le a c = true)
    (x : α) (l : List α)
    (h : l.Pairwise fun a b => le a b = true) :
    (insertLe le x l).Pairwise (fun a b => le a b = true) := by
  induction l with
  | nil => simp [insertLe]
  | cons y ys ih =>
    rw [List.pairwise_cons] at h
    obtain ⟨hy, hys⟩ := h
    simp only [insertLe]
    split
    · rename_i hxy
      rw [List.pairwise_cons]
      refine ⟨?_, List.pairwise_cons.mpr ⟨hy, hys⟩⟩
      intro b hb
      rcases List.mem_cons.mp hb with rfl | hb
      · exact hxy
      · exact htrans x y b hxy (hy b hb)
    · rename_i hxy
      rw [List.pairwise_cons]
      refine ⟨?_, ih hys⟩
      intro b hb
      rcases (mem_insertLe le x ys b).mp hb with rfl | hb
      · rcases htot y b with hyb | hby
        · exact hyb
        · exact (hxy hby).elim
      · exact hy b hb

theorem pairwise_sortLe (le : α → α → Bool)
    (htot : ∀ a b, le a b = true ∨ le b a = true)
    (htrans : ∀ a b c, le a b = true → le b c = true → le a c = true)
    (l : List α) :
    (sortLe le l).Pairwise (fun a b => le a b = true) := by
  induction l with
  | nil => simp [sortLe]
  | cons x xs ih => exact pairwise_insertLe le htot htrans x (sortLe le xs) ih

theorem mem_sortLe (le : α → α → Bool) (l : List α) (a : α) :
    a ∈ sortLe le l ↔ a ∈ l := by
  induction l with
  | nil => simp [sortLe]
  | cons x xs ih =>
    simp [sortLe, mem_insertLe, ih]

theorem pairwise_sqlOrderByDesc (key : α → Nat) (l : List α) :
    (sqlOrderByDesc key l).Pairwise (fun a b => key b ≤ key a) := by
  have h := pairwise_sortLe (fun a b => decide (key b ≤ key a))
    (fun a b => by
      rcases Nat.le_total (key b) (key a) with h | h
      · exact Or.inl (by simpa using h)
      · exact Or.inr (by simpa using h))
    (fun a b c hab hbc => by
      have h1 : key b ≤ key a := by simpa using hab
      have h2 : key c ≤ key b := by simpa using hbc
      simpa using Nat.le_trans h2 h1)
    l
  exact h.imp (fun hab => by simpa using hab)

theorem pairwise_sqlOrderByAsc (key : α → Nat) (l : List α) :
    (sqlOrderByAsc key l).Pairwise (fun a b => key a ≤ key b) := by
  have h := pairwise_sortLe (fun a b => decide (key a ≤ key b))
    (fun a b => by
      rcases Nat.le_total (key a) (key b) with h | h
      · exact Or.inl (by simpa using h)
      · exact Or.inr (by simpa using h))
    (fun a b c hab hbc => by
      have h1 : key a ≤ key b := by simpa using hab
      have h2 : key b ≤ key c := by simpa using hbc
      simpa using Nat.le_trans h1 h2)
    l
  exact h.imp (fun hab => by simpa using hab)

/-!
The ChatDatabase operations of database.py used by the claims.
-/

/-- get_vector_store (database.py lines 120-132): the most recently created
active vector store, if any. -/
def ChatDatabase.get_vector_store (db : ChatDatabase) : Option String :=
  ((sqlOrderByDesc (fun r => r.created_at)
      (db.vector_stores.filter (fun r => r.status == "active"))).head?).map
    (fun r => r.vector_store_id)

/-- create_vector_store (database.py lines 104-118): INSERT OR REPLACE of a
row keyed by vector_store_id; created_at, document_count and status take their
column defaults (the current time, 0, active). Returns True; the False branch
of the Python source covers only storage-medium errors, outside this model. -/
def ChatDatabase.create_vector_store (db : ChatDatabase)
    (vector_store_id name : String) (now : Nat) : Bool × ChatDatabase :=
  (true, { db with vector_stores :=
      db.vector_stores.filter (fun r => !(r.vector_store_id == vector_store_id)) ++
        [{ vector_store_id := vector_store_id, name := name, created_at := now,
           document_count := 0, status := "active" }] })

/-- add_document (database.py lines 136-161): plain INSERT keyed by the OpenAI
file id, then an increment of the owning vector store's document_count. A
primary-key conflict raises sqlite3.IntegrityError, which the except branch
turns into False with no visible write. -/
def ChatDatabase.add_document (db : ChatDatabase)
    (filename openai_file_id vector_store_id : String) (file_size : Nat)
    (uploaded_by : Option String) (now : Nat) : Bool × ChatDatabase :=
  if db.documents.any (fun d => d.id == openai_file_id) then
    (false, db)
  else
    (true, { db with
      documents := db.documents ++
        [{ id := openai_file_id, filename := filename,
           openai_file_id := openai_file_id, vector_store_id := vector_store_id,
           upload_date := now, file_size := file_size, status := "active",
           uploaded_by := uploaded_by }],
      vector_stores := db.vector_stores.map (fun r =>
        if r.vector_store_id == vector_store_id then
          { r with document_count := r.document_count + 1 }
        else r) })

/-- One entry of the list returned by list_documents. -/
structure DocumentListing where
  filename : String
  id : String
  upload_date : Nat
  size : Nat
  uploaded_by : String
deriving Repr, DecidableEq

/-- list_documents (database.py lines 163-185): active documents ordered by
upload_date descending, projected to the dictionary shape of the source
(uploaded_by defaults to the string Unknown). -/
def ChatDatabase.list_documents (db : ChatDatabase) : List DocumentListing :=
  (sqlOrderByDesc (fun d => d.upload_date)
      (db.documents.filter (fun d => d.status == "active"))).map
    (fun d => { filename := d.filename, id := d.openai_file_id,
                upload_date := d.upload_date, size := d.file_size,
                uploaded_by := d.uploaded_by.getD "Unknown" })

/-- delete_document (database.py lines 187-218): looks up the vector store of
the first document row matching the file id, marks every matching row
deleted, and decrements the found store's document_count; returns True even
when no row matches. -/
def ChatDatabase.delete_document (db : ChatDatabase) (file_id : String) :
    Bool × ChatDatabase :=
  let result := db.documents.find? (fun d => d.openai_file_id == file_id)
  let documents := db.documents.map (fun d =>
    if d.openai_file_id == file_id then { d with status := "deleted" } else d)
  let vector_stores :=
    match result with
    | some d => db.vector_stores.map (fun r =>
        if r.vector_store_id == d.vector_store_id then
          { r with document_count := r.document_count - 1 }
        else r)
    | none => db.vector_stores
  (true, { db with documents := documents, vector_stores := vector_stores })

/-- get_document_count (database.py lines 220-227): number of active document
rows. -/
def ChatDatabase.get_document_count (db : ChatDatabase) : Nat :=
  (db.documents.filter (fun d => d.status == "active")).length

/-- One entry of the list returned by list_chat_sessions. -/
structure SessionListing where
  session_id : String
  title : String
  created_at : Nat
  last_activity : Nat
  message_count : Nat
deriving Repr, DecidableEq

/-- get_message_count (database.py lines 403-410): number of message rows of
the session. -/
def ChatDatabase.get_message_count (db : ChatDatabase) (session_id : String) : Nat :=
  (db.messages.filter (fun m => m.session_id == session_id)).length

/-- Python truthiness of an optional string: None and the empty string are
falsy. -/
def truthy : Option String → Bool
  | none => false
  | some s => !(s == "")

/-- list_chat_sessions (database.py lines 279-314): active sessions, filtered
by user when a truthy user id is given, ordered by last_activity descending,
limited, with a message-count subquery per row. -/
def ChatDatabase.list_chat_sessions (db : ChatDatabase)
    (user_id : Option String) (limit : Nat) : List SessionListing :=
  let rows :=
    if truthy user_id then
      db.chat_sessions.filter (fun s => s.user_id == user_id && s.status == "active")
    else
      db.chat_sessions.filter (fun s => s.status == "active")
  ((sqlOrderByDesc (fun s => s.last_activity) rows).take limit).map
    (fun s => { session_id := s.session_id, title := s.title,
                created_at := s.created_at, last_activity := s.last_activity,
                message_count := db.get_message_count s.session_id })

/-- One entry of the list returned by get_chat_history. -/
structure HistoryEntry where
  role : String
  content : String
  timestamp : Nat
  openai_message_id : Option String
  metadata : Option String
deriving Repr, DecidableEq

/-- get_chat_history (database.py lines 377-401): messages of the session
ordered by timestamp ASCENDING (the source says ORDER BY timestamp ASC),
limited. -/
def ChatDatabase.get_chat_history (db : ChatDatabase) (session_id : String)
    (limit : Nat) : List HistoryEntry :=
  ((sqlOrderByAsc (fun m => m.timestamp)
      (db.messages.filter (fun m => m.session_id == session_id))).take limit).map
    (fun m => { role := m.role, content := m.content, timestamp := m.timestamp,
                openai_message_id := m.openai_message_id, metadata := m.metadata })

/-- Claim C8 (amended): list_documents returns in upload-date descending order
and list_chat_sessions in last-activity descending order, but get_chat_history
returns the session's messages in timestamp ASCENDING (chronological) order,
not descending. -/
theorem listing_order_spec (db : ChatDatabase) (user_id : Option String)
    (limit : Nat) (session_id : String) :
    (db.list_documents).Pairwise (fun a b => b.upload_date ≤ a.upload_date) ∧
    (db.list_chat_sessions user_id limit).Pairwise
      (fun a b => b.last_activity ≤ a.last_activity) ∧
    (db.get_chat_history session_id limit).Pairwise
      (fun a b => a.timestamp ≤ b.timestamp) := by
  refine ⟨?_, ?_, ?_⟩
  · have h := pairwise_sqlOrderByDesc (fun d => d.upload_date)
      (db.documents.filter (fun d => d.status == "active"))
    exact List.pairwise_map.mpr (h.imp (fun hab => hab))
  · have h := pairwise_sqlOrderByDesc (fun s => s.last_activity)
      (if truthy user_id then
        db.chat_sessions.filter (fun s => s.user_id == user_id && s.status == "active")
      else
        db.chat_sessions.filter (fun s => s.status == "active"))
    have htake := h.sublist (List.take_sublist limit _)
    exact List.pairwise_map.mpr (htake.imp (fun hab => hab))
  · have h := pairwise_sqlOrderByAsc (fun m => m.timestamp)
      (db.messages.filter (fun m => m.session_id == session_id))
    have htake := h.sublist (List.take_sublist limit _)
    exact List.pairwise_map.mpr (htake.imp (fun hab => hab))

/-- A concrete database with one two-message chat session, used to refute the
descending-order claim for get_chat_history. -/
def historyExampleDb : ChatDatabase where
  documents := []
  chat_sessions := []
  messages := [
    { id := 1, session_id := "s", role := "user", content := "hi",
      timestamp := 1, openai_message_id := none, metadata := none },
    { id := 2, session_id := "s", role := "assistant", content := "hello",
      timestamp := 2, openai_message_id := none, metadata := none }]
  vector_stores := []

/-- Counterexample to C8 as stated: on a session whose two messages have
timestamps 1 and 2, get_chat_history returns them in ascending order, so the
result is not in reverse-chronological (descending) order. -/
theorem get_chat_history_not_reverse_chronological :
    (historyExampleDb.get_chat_history "s" 50).map (fun m => m.timestamp) = [1, 2] ∧
    ¬ (historyExampleDb.get_chat_history "s" 50).Pairwise
        (fun a b => b.timestamp ≤ a.timestamp) := by
  constructor
  · rfl
  · intro h
    have heq : (historyExampleDb.get_chat_history "s" 50).map (fun m => m.timestamp) = [1, 2] := rfl
    have h2 := (List.pairwise_map (f := fun m : HistoryEntry => m.timestamp)
      (R := fun a b => b ≤ a)).symm.mp (by exact h.imp (fun hab => hab))
    rw [heq] at h2
    have := List.pairwise_cons.mp h2
    exact absurd (this.1 2 (by simp)) (by decide)

/-- Claim C10: the Record Store's delete_document returns true even when no
document row with the given file identifier exists (the UPDATE matches zero
rows), and the vector_stores document_count is decremented only when a
matching document row is found, namely on that row's vector store. -/
theorem delete_document_count_spec (db : ChatDatabase) (file_id : String) :
    (db.delete_document file_id).1 = true ∧
    ((∀ d ∈ db.documents, (d.openai_file_id == file_id) = false) →
      (db.delete_document file_id).2.vector_stores = db.vector_stores) ∧
    (∀ d, db.documents.find? (fun d2 => d2.openai_file_id == file_id) = some d →
      (db.delete_document file_id).2.vector_stores =
        db.vector_stores.map (fun r =>
          if r.vector_store_id == d.vector_store_id then
            { r with document_count := r.document_count - 1 }
          else r)) := by
  refine ⟨rfl, ?_, ?_⟩
  · intro hnone
    have hfind : db.documents.find? (fun d2 => d2.openai_file_id == file_id) = none :=
      List.find?_eq_none.mpr (fun d hd => by simp [hnone d hd])
    simp [ChatDatabase.delete_document, hfind]
  · intro d hfind
    simp [ChatDatabase.delete_document, hfind]

/-- Witness for C10: deleting an unknown identifier from a database holding
one document attached to one vector store returns true and leaves the counter
untouched; deleting the known identifier decrements it. -/
theorem delete_document_count_spec_witness :
    (ChatDatabase.delete_document
      { documents := [{ id := "f1", filename := "a.pdf", openai_file_id := "f1",
                        vector_store_id := "vs1", upload_date := 1, file_size := 10,
                        status := "active", uploaded_by := none }],
        chat_sessions := [], messages := [],
        vector_stores := [{ vector_store_id := "vs1", name := "kb", created_at := 0,
                            document_count := 1, status := "active" }] }
      "nope").1 = true ∧
    (ChatDatabase.delete_document
      { documents := [{ id := "f1", filename := "a.pdf", openai_file_id := "f1",
                        vector_store_id := "vs1", upload_date := 1, file_size := 10,
                        status := "active", uploaded_by := none }],
        chat_sessions := [], messages := [],
        vector_stores := [{ vector_store_id := "vs1", name := "kb", created_at := 0,
                            document_count := 1, status := "active" }] }
      "nope").2.vector_stores =
      [{ vector_store_id := "vs1", name := "kb", created_at := 0,
         document_count := 1, status := "active" }] := by
  constructor
  · exact (delete_document_count_spec _ "nope").1
  · have h := (delete_document_count_spec
      { documents := [{ id := "f1", filename := "a.pdf", openai_file_id := "f1",
                        vector_store_id := "vs1", upload_date := 1, file_size := 10,
                        status := "active", uploaded_by := none }],
        chat_sessions := [], messages := [],
        vector_stores := [{ vector_store_id := "vs1", name := "kb", created_at := 0,
                            document_count := 1, status := "active" }] }
      "nope").2.1 (by decide)
    simpa using h

theorem length_insertLe (le : α → α → Bool) (x : α) (l : List α) :
    (insertLe le x l).length = l.length + 1 := by
  induction l with
  | nil => rfl
  | cons y ys ih =>
    simp only [insertLe]
    split
    · rfl
    · simp [ih]

theorem length_sortLe (le : α → α → Bool) (l : List α) :
    (sortLe le l).length = l.length := by
  induction l with
  | nil => rfl
  | cons x xs ih => simp [sortLe, length_insertLe, ih]

theorem sortLe_ne_nil (le : α → α → Bool) (l : List α) (h : l ≠ []) :
    sortLe le l ≠ [] := by
  intro h0
  apply h
  have hlen := length_sortLe le l
  rw [h0] at hlen
  exact List.length_eq_zero.mp hlen.symm

theorem mem_sqlOrderByDesc (key : α → Nat) (l : List α) (a : α) :
    a ∈ sqlOrderByDesc key l ↔ a ∈ l :=
  mem_sortLe _ l a

/-- The first row of an ORDER BY key DESC result is a row of the input whose
key dominates every input row. -/
theorem sqlOrderByDesc_head_spec (key : α → Nat) (l : List α) (x : α)
    (hd : (sqlOrderByDesc key l).head? = some x) :
    x ∈ l ∧ ∀ a ∈ l, key a ≤ key x := by
  have hp := pairwise_sqlOrderByDesc key l
  rcases hs : sqlOrderByDesc key l with _ | ⟨y, t⟩
  · rw [hs] at hd
    exact absurd hd (by simp)
  · rw [hs] at hd
    have hxy : x = y := by simpa using hd.symm
    subst hxy
    rw [hs, List.pairwise_cons] at hp
    constructor
    · exact (mem_sqlOrderByDesc key l x).mp (by rw [hs]; exact List.mem_cons_self _ _)
    · intro a ha
      have ha2 : a ∈ sqlOrderByDesc key l := (mem_sqlOrderByDesc key l a).mpr ha
      rw [hs] at ha2
      rcases List.mem_cons.mp ha2 with rfl | ha2
      · exact Nat.le_refl _
      · exact hp.1 a ha2

/-- The row that create_vector_store inserts: column defaults of the
vector_stores table applied to the new identifier and name. -/
def newVectorStoreRow (id name : String) (now : Nat) : VectorStoreRow :=
  { vector_store_id := id, name := name, created_at := now,
    document_count := 0, status := "active" }

/-- After create_vector_store with a creation time later than every existing
row, get_vector_store reads back the newly persisted identifier. -/
theorem get_vector_store_after_create (db : ChatDatabase) (id name : String)
    (now : Nat) (hfresh : ∀ r ∈ db.vector_stores, r.created_at < now) :
    (db.create_vector_store id name now).2.get_vector_store = some id := by
  have hvs : (db.create_vector_store id name now).2.vector_stores =
      db.vector_stores.filter (fun r => !(r.vector_store_id == id)) ++
        [newVectorStoreRow id name now] := rfl
  have hAeq : ((db.create_vector_store id name now).2.vector_stores).filter
        (fun r => r.status == "active") =
      ((db.vector_stores.filter (fun r => !(r.vector_store_id == id))).filter
        (fun r => r.status == "active")) ++ [newVectorStoreRow id name now] := by
    rw [hvs, List.filter_append]
    rfl
  have hmemNew : newVectorStoreRow id name now ∈
      ((db.create_vector_store id name now).2.vector_stores).filter
        (fun r => r.status == "active") := by
    rw [hAeq]
    exact List.mem_append_right _ (List.mem_cons_self _ _)
  have hne : ((db.create_vector_store id name now).2.vector_stores).filter
      (fun r => r.status == "active") ≠ [] := by
    intro h
    rw [h] at hmemNew
    exact absurd hmemNew (List.not_mem_nil _)
  have hne2 := sortLe_ne_nil (fun a b => decide (b.created_at ≤ a.created_at)) _ hne
  obtain ⟨x, hx⟩ : ∃ x, (sqlOrderByDesc (fun r => r.created_at)
      (((db.create_vector_store id name now).2.vector_stores).filter
        (fun r => r.status == "active"))).head? = some x := by
    rcases hsq : sqlOrderByDesc (fun r => r.created_at)
        (((db.create_vector_store id name now).2.vector_stores).filter
          (fun r => r.status == "active")) with _ | ⟨a, t⟩
    · exact absurd hsq hne2
    · exact ⟨a, by rw [hsq]; rfl⟩
  obtain ⟨hxmem, hxmax⟩ := sqlOrderByDesc_head_spec _ _ _ hx
  have hnow : now ≤ x.created_at := by
    have := hxmax _ hmemNew
    simpa [newVectorStoreRow] using this
  have hxeq : x = newVectorStoreRow id name now := by
    rw [hAeq] at hxmem
    rcases List.mem_append.mp hxmem with hmem | hmem
    · exfalso
      have hx1 : x ∈ db.vector_stores :=
        List.mem_of_mem_filter (List.mem_of_mem_filter hmem)
      have := hfresh x hx1
      omega
    · simpa using hmem
  show ((sqlOrderByDesc (fun r => r.created_at)
      (((db.create_vector_store id name now).2.vector_stores).filter
        (fun r => r.status == "active"))).head?).map (fun r => r.vector_store_id) =
    some id
  rw [hx, hxeq]
  rfl

/-- Oracle for the two remote vector-store calls of
get_or_create_vector_store: whether client.vector_stores.retrieve succeeds on
a given identifier, and the identifier that client.vector_stores.create would
return. -/
structure RemoteVectorStoreEnv where
  retrieve_ok : String → Bool
  new_vector_store_id : String

/-- get_or_create_vector_store (app.py lines 33-60): returns the cached
identifier when the remote confirmation succeeds; otherwise (no cache, or the
confirmation raised and the exception was swallowed) creates one new remote
vector store, persists its identifier via create_vector_store, and returns it.
The third component counts remote creation calls. -/
def RAGAssistant.get_or_create_vector_store (cfg : Config)
    (env : RemoteVectorStoreEnv) (db : ChatDatabase) (now : Nat) :
    String × ChatDatabase × Nat :=
  match db.get_vector_store with
  | some vector_store_id =>
    if env.retrieve_ok vector_store_id then
      (vector_store_id, db, 0)
    else
      (env.new_vector_store_id,
        (db.create_vector_store env.new_vector_store_id cfg.vector_store_name now).2, 1)
  | none =>
      (env.new_vector_store_id,
        (db.create_vector_store env.new_vector_store_id cfg.vector_store_name now).2, 1)

/-- Claim C1: when a cached identifier exists and the remote confirmation
succeeds, get_or_create_vector_store returns it with no creation call; when
there is no cached identifier or the confirmation fails, the error is not
propagated: exactly one remote index is created, its identifier is persisted
as an active row of the Record Store in the returned state, and (for a
creation time later than all existing rows) the store reads back the new
identifier. -/
theorem get_or_create_vector_store_spec (cfg : Config)
    (env : RemoteVectorStoreEnv) (db : ChatDatabase) (now : Nat) :
    (∀ vid, db.get_vector_store = some vid → env.retrieve_ok vid = true →
      RAGAssistant.get_or_create_vector_store cfg env db now = (vid, db, 0)) ∧
    ((db.get_vector_store = none ∨
        ∃ vid, db.get_vector_store = some vid ∧ env.retrieve_ok vid = false) →
      (RAGAssistant.get_or_create_vector_store cfg env db now).1 =
        env.new_vector_store_id ∧
      (RAGAssistant.get_or_create_vector_store cfg env db now).2.2 = 1 ∧
      (∃ r ∈ (RAGAssistant.get_or_create_vector_store cfg env db now).2.1.vector_stores,
        r.vector_store_id = env.new_vector_store_id ∧ r.status = "active" ∧
        r.created_at = now) ∧
      ((∀ r ∈ db.vector_stores, r.created_at < now) →
        (RAGAssistant.get_or_create_vector_store cfg env db now).2.1.get_vector_store =
          some env.new_vector_store_id)) := by
  constructor
  · intro vid hvid hok
    simp [RAGAssistant.get_or_create_vector_store, hvid, hok]
  · intro hcase
    have hres : RAGAssistant.get_or_create_vector_store cfg env db now =
        (env.new_vector_store_id,
          (db.create_vector_store env.new_vector_store_id cfg.vector_store_name now).2,
          1) := by
      rcases hcase with hnone | ⟨vid, hvid, hbad⟩
      · simp [RAGAssistant.get_or_create_vector_store, hnone]
      · simp [RAGAssistant.get_or_create_vector_store, hvid, hbad]
    refine ⟨by rw [hres], by rw [hres], ?_, ?_⟩
    · rw [hres]
      exact ⟨newVectorStoreRow env.new_vector_store_id cfg.vector_store_name now,
             List.mem_append_right _ (List.mem_cons_self _ _), rfl, rfl, rfl⟩
    · intro hfresh
      rw [hres]
      exact get_vector_store_after_create db env.new_vector_store_id
        cfg.vector_store_name now hfresh

/-- Witness for C1, both branches: a cached identifier confirmed by the remote
service is returned as-is; on an empty cache a new identifier is created,
persisted, and read back. -/
theorem get_or_create_vector_store_spec_witness :
    RAGAssistant.get_or_create_vector_store defaultConfig
      { retrieve_ok := fun _ => true, new_vector_store_id := "vs-new" }
      { documents := [], chat_sessions := [], messages := [],
        vector_stores := [{ vector_store_id := "vs-old", name := "kb",
                            created_at := 3, document_count := 0,
                            status := "active" }] } 5 =
      ("vs-old",
        { documents := [], chat_sessions := [], messages := [],
          vector_stores := [{ vector_store_id := "vs-old", name := "kb",
                              created_at := 3, document_count := 0,
                              status := "active" }] }, 0) ∧
    (RAGAssistant.get_or_create_vector_store defaultConfig
      { retrieve_ok := fun _ => false, new_vector_store_id := "vs-new" }
      { documents := [], chat_sessions := [], messages := [],
        vector_stores := [] } 5).1 = "vs-new" ∧
    (RAGAssistant.get_or_create_vector_store defaultConfig
      { retrieve_ok := fun _ => false, new_vector_store_id := "vs-new" }
      { documents := [], chat_sessions := [], messages := [],
        vector_stores := [] } 5).2.2 = 1 ∧
    (RAGAssistant.get_or_create_vector_store defaultConfig
      { retrieve_ok := fun _ => false, new_vector_store_id := "vs-new" }
      { documents := [], chat_sessions := [], messages := [],
        vector_stores := [] } 5).2.1.get_vector_store = some "vs-new" := by
  refine ⟨?_, ?_⟩
  · exact (get_or_create_vector_store_spec defaultConfig
      { retrieve_ok := fun _ => true, new_vector_store_id := "vs-new" }
      { documents := [], chat_sessions := [], messages := [],
        vector_stores := [{ vector_store_id := "vs-old", name := "kb",
                            created_at := 3, document_count := 0,
                            status := "active" }] } 5).1 "vs-old" (by rfl) (by rfl)
  · have h := (get_or_create_vector_store_spec defaultConfig
      { retrieve_ok := fun _ => false, new_vector_store_id := "vs-new" }
      { documents := [], chat_sessions := [], messages := [],
        vector_stores := [] } 5).2 (Or.inl (by rfl))
    exact ⟨h.1, h.2.1, h.2.2.2 (by intro r hr; exact absurd hr (List.not_mem_nil _))⟩

/-!
Document upload (app.py upload_documents) and deletion (app.py
delete_document).
-/

/-- One file of an upload batch together with the outcome the remote service
would give it. name is the resolved file name (the name attribute, or the
basename of the path for path-backed elements); content is the byte payload,
none when the element has neither content nor a readable path;
remote_file_id is the id client.files.create would return, none when that
call would raise; poll_ok tells whether
client.vector_stores.files.create_and_poll would succeed. -/
structure UploadFile where
  name : String
  content : Option (List Nat)
  remote_file_id : Option String
  poll_ok : Bool

/-- One success entry of the upload report (filename, remote id, size). -/
structure UploadedFileInfo where
  filename : String
  id : String
  size : Nat
deriving Repr, DecidableEq

/-- The fixed parts of the per-file error strings of upload_documents; the
text of a caught exception is abstracted away. -/
def uploadErrorText : UploadVerdictReason → String
  | UploadVerdictReason.oversize _ _ => "File size exceeds maximum allowed size"
  | UploadVerdictReason.disallowedType _ _ => "File type not allowed"
  | UploadVerdictReason.valid => "File is valid"

/-- The body of the per-file loop of upload_documents (app.py lines 89-158):
returns the optional success entry, the optional error string, and the
database after the iteration. -/
def process_upload_file (cfg : Config) (vector_store_id : String)
    (user_id : Option String) (now : Nat) (db : ChatDatabase)
    (f : UploadFile) : Option UploadedFileInfo × Option String × ChatDatabase :=
  match f.content with
  | none => (none, some (f.name ++ ": No file content or path available"), db)
  | some bytes =>
    if bytes.length == 0 then
      (none, some (f.name ++ ": File content is empty or corrupted"), db)
    else
      if !(validate_file_upload cfg f.name bytes.length).1 then
        (none,
         some (f.name ++ ": " ++
           uploadErrorText (validate_file_upload cfg f.name bytes.length).2), db)
      else
        match f.remote_file_id with
        | none => (none, some (f.name ++ ": remote upload raised"), db)
        | some openai_file_id =>
          if f.poll_ok then
            (some { filename := f.name, id := openai_file_id, size := bytes.length },
             none,
             (db.add_document f.name openai_file_id vector_store_id bytes.length
               user_id now).2)
          else
            (none, some (f.name ++ ": vector store registration raised"), db)

/-- The per-file loop of upload_documents: one file's failure leaves the rest
of the batch processed. -/
def process_upload_files (cfg : Config) (vector_store_id : String)
    (user_id : Option String) (now : Nat) :
    ChatDatabase → List UploadFile →
    List UploadedFileInfo × List String × ChatDatabase
  | db, [] => ([], [], db)
  | db, f :: fs =>
    let r := process_upload_file cfg vector_store_id user_id now db f
    let rest := process_upload_files cfg vector_store_id user_id now r.2.2 fs
    (r.1.toList ++ rest.1, r.2.1.toList ++ rest.2.1, rest.2.2)

/-- The report dictionary returned by upload_documents. The empty-batch return
value has only success and message keys in the source; its list and count
fields are represented by their empty and zero values. -/
structure UploadReport where
  success : Bool
  message : Option String
  uploaded_files : List UploadedFileInfo
  errors : List String
  total_files : Nat
  successful_uploads : Nat
deriving Repr, DecidableEq

/-- upload_documents (app.py lines 79-166): an empty batch fails immediately
with no remote call; otherwise the vector store is resolved once and every
file is processed independently. -/
def RAGAssistant.upload_documents (cfg : Config) (renv : RemoteVectorStoreEnv)
    (db : ChatDatabase) (now : Nat) (files : List UploadFile)
    (user_id : Option String) : UploadReport × ChatDatabase :=
  if files.isEmpty then
    ({ success := false, message := some "No files provided", uploaded_files := [],
       errors := [], total_files := 0, successful_uploads := 0 }, db)
  else
    let resolved := RAGAssistant.get_or_create_vector_store cfg renv db now
    let processed := process_upload_files cfg resolved.1 user_id now resolved.2.1 files
    ({ success := decide (0 < processed.1.length), message := none,
       uploaded_files := processed.1, errors := processed.2.1,
       total_files := files.length, successful_uploads := processed.1.length },
     processed.2.2)

/-- Whether the per-file loop succeeds on a file: content present and
nonempty, validation passes, and both remote calls succeed. This predicate
does not depend on the database state threaded through the loop. -/
def upload_file_succeeds (cfg : Config) (f : UploadFile) : Bool :=
  match f.content with
  | none => false
  | some bytes =>
    !(bytes.length == 0) && (validate_file_upload cfg f.name bytes.length).1 &&
      f.remote_file_id.isSome && f.poll_ok

theorem process_upload_file_success (cfg : Config) (vector_store_id : String)
    (user_id : Option String) (now : Nat) (db : ChatDatabase) (f : UploadFile) :
    (process_upload_file cfg vector_store_id user_id now db f).1.toList.length =
      if upload_file_succeeds cfg f then 1 else 0 := by
  unfold process_upload_file upload_file_succeeds
  rcases f.content with _ | bytes
  · rfl
  · simp only
    by_cases hz : bytes.length = 0
    · simp [hz]
    · have hz2 : (bytes.length == 0) = false := by simpa using hz
      by_cases hv : (validate_file_upload cfg f.name bytes.length).1 = true
      · rcases hr : f.remote_file_id with _ | fid
        · simp [hz2, hv, hr]
        · rcases hp : f.poll_ok with _ | _
          · simp [hz2, hv, hr, hp]
          · simp [hz2, hv, hr, hp]
      · have hv2 : (validate_file_upload cfg f.name bytes.length).1 = false := by
          simpa using hv
        simp [hz2, hv2]

theorem process_upload_files_count (cfg : Config) (vector_store_id : String)
    (user_id : Option String) (now : Nat) (db : ChatDatabase)
    (files : List UploadFile) :
    (process_upload_files cfg vector_store_id user_id now db files).1.length =
      files.countP (upload_file_succeeds cfg) := by
  induction files generalizing db with
  | nil => simp [process_upload_files]
  | cons f fs ih =>
    simp only [process_upload_files, List.length_append, List.countP_cons]
    rw [ih, process_upload_file_success]
    rcases h : upload_file_succeeds cfg f with _ | _
    · simp [h]
    · simp [h, Nat.add_comm]

/-- Claim C6: for every batch (the empty one included) the report satisfies
successful_uploads ≤ total_files and success holds exactly when some upload
succeeded; and for a nonempty batch the number of successes equals the count
of files that individually succeed, so one file's failure does not abort the
processing of the others. -/
theorem upload_documents_report_spec (cfg : Config) (renv : RemoteVectorStoreEnv)
    (db : ChatDatabase) (now : Nat) (files : List UploadFile)
    (user_id : Option String) :
    (RAGAssistant.upload_documents cfg renv db now files user_id).1.successful_uploads ≤
      (RAGAssistant.upload_documents cfg renv db now files user_id).1.total_files ∧
    ((RAGAssistant.upload_documents cfg renv db now files user_id).1.success = true ↔
      0 < (RAGAssistant.upload_documents cfg renv db now files user_id).1.successful_uploads) ∧
    (files ≠ [] →
      (RAGAssistant.upload_documents cfg renv db now files user_id).1.successful_uploads =
        files.countP (upload_file_succeeds cfg)) := by
  rcases files with _ | ⟨f, fs⟩
  · refine ⟨Nat.le_refl 0, ?_, fun h => absurd rfl h⟩
    simp [RAGAssistant.upload_documents]
  · have hcount := process_upload_files_count cfg
      (RAGAssistant.get_or_create_vector_store cfg renv db now).1 user_id now
      (RAGAssistant.get_or_create_vector_store cfg renv db now).2.1 (f :: fs)
    refine ⟨?_, ?_, fun _ => ?_⟩
    · simp only [RAGAssistant.upload_documents, List.isEmpty_cons, Bool.false_eq_true,
        if_false]
      rw [hcount]
      exact Nat.le_trans (List.countP_le_length _) (Nat.le_refl _)
    · simp [RAGAssistant.upload_documents]
    · simp only [RAGAssistant.upload_documents, List.isEmpty_cons, Bool.false_eq_true,
        if_false]
      exact hcount

/-- Witness for C6: a two-file batch in which the second file has a
disallowed extension reports one success out of two files. -/
theorem upload_documents_report_spec_witness :
    ([({ name := "notes.pdf", content := some [1, 2, 3], remote_file_id := some "file-1",
         poll_ok := true } : UploadFile),
      { name := "malware.exe", content := some [9], remote_file_id := some "file-2",
        poll_ok := true }] : List UploadFile) ≠ [] ∧
    (RAGAssistant.upload_documents defaultConfig
      { retrieve_ok := fun _ => false, new_vector_store_id := "vs" }
      { documents := [], chat_sessions := [], messages := [], vector_stores := [] }
      7
      [{ name := "notes.pdf", content := some [1, 2, 3], remote_file_id := some "file-1",
         poll_ok := true },
       { name := "malware.exe", content := some [9], remote_file_id := some "file-2",
         poll_ok := true }]
      none).1.successful_uploads =
      List.countP (upload_file_succeeds defaultConfig)
        [{ name := "notes.pdf", content := some [1, 2, 3], remote_file_id := some "file-1",
           poll_ok := true },
         { name := "malware.exe", content := some [9], remote_file_id := some "file-2",
           poll_ok := true }] ∧
    List.countP (upload_file_succeeds defaultConfig)
      [({ name := "notes.pdf", content := some [1, 2, 3], remote_file_id := some "file-1",
          poll_ok := true } : UploadFile),
       { name := "malware.exe", content := some [9], remote_file_id := some "file-2",
         poll_ok := true }] = 1 := by
  refine ⟨by simp, ?_, by decide⟩
  exact (upload_documents_report_spec defaultConfig
    { retrieve_ok := fun _ => false, new_vector_store_id := "vs" }
    { documents := [], chat_sessions := [], messages := [], vector_stores := [] }
    7 _ none).2.2 (by simp)

/-- Oracle for the remote client.files.delete call of the app-level
delete_document: whether the call succeeds for a given file id. -/
structure RemoteFileDeleteEnv where
  delete_ok : String → Bool

/-- delete_document (app.py lines 168-181): deletes the remote file first,
then soft-deletes the Record Store entry, returning True; any exception from
the remote call is caught and turns into False with the database untouched. -/
def RAGAssistant.delete_document (env : RemoteFileDeleteEnv) (db : ChatDatabase)
    (file_id : String) : Bool × ChatDatabase :=
  if env.delete_ok file_id then
    (true, (db.delete_document file_id).2)
  else
    (false, db)

/-- Claim C2: the app-level delete_document returns true exactly when the
remote delete succeeded, in which case every Record Store row with that file
id is soft-deleted; when the remote delete fails it returns false and the
Record Store is unchanged, so the document still appears in list_documents. -/
theorem delete_document_app_spec (env : RemoteFileDeleteEnv) (db : ChatDatabase)
    (file_id : String) :
    ((RAGAssistant.delete_document env db file_id).1 = true ↔
      env.delete_ok file_id = true) ∧
    ((RAGAssistant.delete_document env db file_id).1 = true →
      ∀ d ∈ (RAGAssistant.delete_document env db file_id).2.documents,
        d.openai_file_id = file_id → d.status = "deleted") ∧
    (env.delete_ok file_id = false →
      (RAGAssistant.delete_document env db file_id).1 = false ∧
      (RAGAssistant.delete_document env db file_id).2 = db ∧
      (RAGAssistant.delete_document env db file_id).2.list_documents =
        db.list_documents) := by
  refine ⟨?_, ?_, ?_⟩
  · rcases h : env.delete_ok file_id with _ | _
    · simp [RAGAssistant.delete_document, h]
    · simp [RAGAssistant.delete_document, h]
  · intro h1 d hd hid
    rcases hcase : env.delete_ok file_id with _ | _
    · rw [show RAGAssistant.delete_document env db file_id = (false, db) from by
        simp [RAGAssistant.delete_document, hcase]] at h1
      cases h1
    · have hres : (RAGAssistant.delete_document env db file_id).2 =
          (db.delete_document file_id).2 := by
        simp [RAGAssistant.delete_document, hcase]
      rw [hres] at hd
      have hdocs : (db.delete_document file_id).2.documents =
          db.documents.map (fun d0 =>
            if d0.openai_file_id == file_id then { d0 with status := "deleted" }
            else d0) := rfl
      rw [hdocs] at hd
      obtain ⟨d0, _, hmap⟩ := List.mem_map.mp hd
      by_cases hm : (d0.openai_file_id == file_id) = true
      · rw [if_pos hm] at hmap
        rw [← hmap]
      · rw [if_neg hm] at hmap
        subst hmap
        exact absurd (by simpa using hid) hm
  · intro hfail
    have hres : RAGAssistant.delete_document env db file_id = (false, db) := by
      simp [RAGAssistant.delete_document, hfail]
    rw [hres]
    exact ⟨rfl, rfl, rfl⟩

/-- Witness for C2: with a failing remote delete the document of a one-entry
store still appears in list_documents; with a succeeding one the matching row
comes out soft-deleted. -/
theorem delete_document_app_spec_witness :
    (RAGAssistant.delete_document { delete_ok := fun _ => false }
      { documents := [{ id := "f1", filename := "a.pdf", openai_file_id := "f1",
                        vector_store_id := "vs1", upload_date := 1, file_size := 10,
                        status := "active", uploaded_by := none }],
        chat_sessions := [], messages := [],
        vector_stores := [] } "f1").1 = false ∧
    (RAGAssistant.delete_document { delete_ok := fun _ => false }
      { documents := [{ id := "f1", filename := "a.pdf", openai_file_id := "f1",
                        vector_store_id := "vs1", upload_date := 1, file_size := 10,
                        status := "active", uploaded_by := none }],
        chat_sessions := [], messages := [],
        vector_stores := [] } "f1").2.list_documents =
      ({ documents := [{ id := "f1", filename := "a.pdf", openai_file_id := "f1",
                         vector_store_id := "vs1", upload_date := 1, file_size := 10,
                         status := "active", uploaded_by := none }],
         chat_sessions := [], messages := [],
         vector_stores := [] } : ChatDatabase).list_documents ∧
    (({ id := "f1", filename := "a.pdf", openai_file_id := "f1",
        vector_store_id := "vs1", upload_date := 1, file_size := 10,
        status := "deleted", uploaded_by := none } : DocumentRow)).status = "deleted" := by
  have h3 := (delete_document_app_spec { delete_ok := fun _ => false }
    { documents := [{ id := "f1", filename := "a.pdf", openai_file_id := "f1",
                      vector_store_id := "vs1", upload_date := 1, file_size := 10,
                      status := "active", uploaded_by := none }],
      chat_sessions := [], messages := [],
      vector_stores := [] } "f1").2.2 rfl
  have h2 := (delete_document_app_spec { delete_ok := fun _ => true }
    { documents := [{ id := "f1", filename := "a.pdf", openai_file_id := "f1",
                      vector_store_id := "vs1", upload_date := 1, file_size := 10,
                      status := "active", uploaded_by := none }],
      chat_sessions := [], messages := [],
      vector_stores := [] } "f1").2.1 rfl
    { id := "f1", filename := "a.pdf", openai_file_id := "f1",
      vector_store_id := "vs1", upload_date := 1, file_size := 10,
      status := "deleted", uploaded_by := none }
    (by decide) rfl
  exact ⟨h3.1, h3.2.2, h2⟩

/-!
The session-turn handler handle_message_content (app.py lines 491-544) with
its observable event trace.
-/

/-- save_message (database.py lines 349-375): inserts a message row (the
AUTOINCREMENT id modelled as one past the current row count) and touches the
session's last_activity within the same call. -/
def ChatDatabase.save_message (db : ChatDatabase) (session_id role content : String)
    (openai_message_id : Option String) (metadata : Option String) (now : Nat) :
    Bool × ChatDatabase :=
  (true, { db with
    messages := db.messages ++
      [{ id := db.messages.length + 1, session_id := session_id, role := role,
         content := content, timestamp := now,
         openai_message_id := openai_message_id, metadata := metadata }],
    chat_sessions := db.chat_sessions.map (fun s =>
      if s.session_id == session_id then { s with last_activity := now } else s) })

/-- update_session_activity (database.py lines 316-329). -/
def ChatDatabase.update_session_activity (db : ChatDatabase) (session_id : String)
    (now : Nat) : ChatDatabase :=
  { db with chat_sessions := db.chat_sessions.map (fun s =>
      if s.session_id == session_id then { s with last_activity := now } else s) }

/-- update_chat_title (database.py lines 331-345). -/
def ChatDatabase.update_chat_title (db : ChatDatabase) (session_id title : String) :
    ChatDatabase :=
  { db with chat_sessions := db.chat_sessions.map (fun s =>
      if s.session_id == session_id then { s with title := title } else s) }

/-- The observable actions of one session turn, in execution order: Record
Store writes, remote-service interactions, and received stream fragments. -/
inductive TurnEvent where
  | dbSaveMessage (session_id role content : String)
  | dbUpdateActivity (session_id : String)
  | dbUpdateTitle (session_id title : String)
  | remoteAppendMessage (thread_id content : String)
  | remoteStreamRun (thread_id assistant_id : String)
  | streamDelta (text : String)
deriving Repr, DecidableEq

/-- Whether an event is a Record Store write. -/
def TurnEvent.isDbWrite : TurnEvent → Bool
  | TurnEvent.dbSaveMessage _ _ _ => true
  | TurnEvent.dbUpdateActivity _ => true
  | TurnEvent.dbUpdateTitle _ _ => true
  | _ => false

/-- Whether an event is an interaction with the remote conversational
service. -/
def TurnEvent.isRemote : TurnEvent → Bool
  | TurnEvent.remoteAppendMessage _ _ => true
  | TurnEvent.remoteStreamRun _ _ => true
  | TurnEvent.streamDelta _ => true
  | _ => false

/-- Whether an event is a session-title update. -/
def TurnEvent.isTitleUpdate : TurnEvent → Bool
  | TurnEvent.dbUpdateTitle _ _ => true
  | _ => false

/-- Whether an event is a received stream fragment. -/
def TurnEvent.isStreamDelta : TurnEvent → Bool
  | TurnEvent.streamDelta _ => true
  | _ => false

/-- The identifiers read from the Chainlit user session at the start of
handle_message_content; absence is None. -/
structure SessionContext where
  session_id : Option String
  user_id : Option String
  thread_id : Option String
  assistant_id : Option String
deriving Repr, DecidableEq

/-- The visible outcome of handle_message_content: the session-integrity
error message, or normal completion. -/
inductive TurnResult where
  | sessionError
  | ok
deriving Repr, DecidableEq

/-- handle_message_content (app.py lines 491-544): when any of the session,
thread or assistant identifiers is falsy the handler reports a session error
and stops; otherwise it saves the user message, forwards it to the remote
thread, opens the streaming run, accumulates the reply, saves it, touches the
session activity, and sets the title when this is exactly the session's
second stored message. stream is the sequence of text fragments the remote
run yields. -/
def handle_message_content (cfg : Config) (ctx : SessionContext)
    (content : String) (stream : List String) (db : ChatDatabase) (now : Nat) :
    TurnResult × ChatDatabase × List TurnEvent :=
  if truthy ctx.session_id && truthy ctx.thread_id && truthy ctx.assistant_id then
    let session_id := ctx.session_id.getD ""
    let thread_id := ctx.thread_id.getD ""
    let assistant_id := ctx.assistant_id.getD ""
    let db1 := (db.save_message session_id "user" content none none now).2
    let response_content := String.join stream
    let db2 := (db1.save_message session_id "assistant" response_content none none now).2
    let db3 := db2.update_session_activity session_id now
    let message_count := db3.get_message_count session_id
    let events :=
      TurnEvent.dbSaveMessage session_id "user" content ::
      TurnEvent.remoteAppendMessage thread_id content ::
      TurnEvent.remoteStreamRun thread_id assistant_id ::
      (stream.map TurnEvent.streamDelta ++
        [TurnEvent.dbSaveMessage session_id "assistant" response_content,
         TurnEvent.dbUpdateActivity session_id])
    if message_count == 2 then
      let title := truncate_text content (cfg.chat_title_length : Int)
      (TurnResult.ok, db3.update_chat_title session_id title,
        events ++ [TurnEvent.dbUpdateTitle session_id title])
    else
      (TurnResult.ok, db3, events)
  else
    (TurnResult.sessionError, db, [])

/-- Claim C3: whenever the session, thread or assistant identifier is empty
or missing, handle_message_content reports a session-integrity failure,
leaves the Record Store untouched, and performs no remote call: its event
trace is empty, so in particular it contains no Record Store write and no
remote interaction. -/
theorem handle_message_content_session_integrity (cfg : Config)
    (ctx : SessionContext) (content : String) (stream : List String)
    (db : ChatDatabase) (now : Nat) :
    (truthy ctx.session_id && truthy ctx.thread_id && truthy ctx.assistant_id) = false →
    handle_message_content cfg ctx content stream db now =
      (TurnResult.sessionError, db, []) ∧
    ((handle_message_content cfg ctx content stream db now).2.2.filter
      (fun e => e.isDbWrite)) = [] ∧
    ((handle_message_content cfg ctx content stream db now).2.2.filter
      (fun e => e.isRemote)) = [] := by
  intro h
  have hres : handle_message_content cfg ctx content stream db now =
      (TurnResult.sessionError, db, []) := by
    unfold handle_message_content
    rw [h]
    simp
  exact ⟨hres, by rw [hres]; rfl, by rw [hres]; rfl⟩

/-- Witness for C3: a session context missing its thread id yields the
session-integrity failure with no state change and no events. -/
theorem handle_message_content_session_integrity_witness :
    handle_message_content defaultConfig
      { session_id := some "s", user_id := some "u", thread_id := none,
        assistant_id := some "a" }
      "hello" ["x"]
      { documents := [], chat_sessions := [], messages := [], vector_stores := [] }
      3 =
      (TurnResult.sessionError,
       { documents := [], chat_sessions := [], messages := [], vector_stores := [] },
       []) :=
  (handle_message_content_session_integrity defaultConfig
    { session_id := some "s", user_id := some "u", thread_id := none,
      assistant_id := some "a" }
    "hello" ["x"]
    { documents := [], chat_sessions := [], messages := [], vector_stores := [] }
    3 (by decide)).1

theorem get_message_count_save_message (db : ChatDatabase)
    (sid role content : String) (omi md : Option String) (now : Nat) :
    ((db.save_message sid role content omi md now).2).get_message_count sid =
      db.get_message_count sid + 1 := by
  simp [ChatDatabase.save_message, ChatDatabase.get_message_count]

theorem get_message_count_update_activity (db : ChatDatabase)
    (sid : String) (now : Nat) (sid2 : String) :
    (db.update_session_activity sid now).get_message_count sid2 =
      db.get_message_count sid2 := rfl

theorem get_message_count_update_title (db : ChatDatabase)
    (sid title sid2 : String) :
    (db.update_chat_title sid title).get_message_count sid2 =
      db.get_message_count sid2 := rfl

theorem filter_title_map_delta (stream : List String) :
    (stream.map TurnEvent.streamDelta).filter (fun e => e.isTitleUpdate) = [] := by
  induction stream with
  | nil => rfl
  | cons s ss ih => simp [TurnEvent.isTitleUpdate, ih]

/-- One valid turn adds exactly two messages to the session. -/
theorem handle_turn_message_count (cfg : Config) (ctx : SessionContext)
    (content : String) (stream : List String) (db : ChatDatabase) (now : Nat)
    (hvalid : (truthy ctx.session_id && truthy ctx.thread_id &&
      truthy ctx.assistant_id) = true) :
    (handle_message_content cfg ctx content stream db now).2.1.get_message_count
        (ctx.session_id.getD "") =
      db.get_message_count (ctx.session_id.getD "") + 2 := by
  unfold handle_message_content
  rw [hvalid]
  simp only [if_true]
  split
  · simp [get_message_count_update_title, get_message_count_update_activity,
      get_message_count_save_message]
  · simp [get_message_count_update_activity, get_message_count_save_message]

/-- The title-update events of one valid turn: exactly one when the session
had no stored messages before the turn (so the turn persists messages one and
two), none otherwise. -/
theorem handle_turn_title_events (cfg : Config) (ctx : SessionContext)
    (content : String) (stream : List String) (db : ChatDatabase) (now : Nat)
    (hvalid : (truthy ctx.session_id && truthy ctx.thread_id &&
      truthy ctx.assistant_id) = true) :
    (handle_message_content cfg ctx content stream db now).2.2.filter
        (fun e => e.isTitleUpdate) =
      (if db.get_message_count (ctx.session_id.getD "") = 0 then
        [TurnEvent.dbUpdateTitle (ctx.session_id.getD "")
          (truncate_text content (cfg.chat_title_length : Int))]
      else []) := by
  unfold handle_message_content
  rw [hvalid]
  simp only [if_true]
  rw [get_message_count_update_activity, get_message_count_save_message,
    get_message_count_save_message]
  by_cases hc : db.get_message_count (ctx.session_id.getD "") = 0
  · rw [hc]
    simp [filter_title_map_delta, TurnEvent.isTitleUpdate]
  · have hne : db.get_message_count (ctx.session_id.getD "") + 1 + 1 ≠ 2 := by omega
    have hb : (db.get_message_count (ctx.session_id.getD "") + 1 + 1 == 2) = false := by
      simpa using hne
    rw [hb]
    simp [filter_title_map_delta, TurnEvent.isTitleUpdate, hc]

/-- A sequence of chat turns against one session context: each turn feeds the
database produced by the previous one, and the event traces concatenate. -/
def run_turns (cfg : Config) (ctx : SessionContext)
    (turns : List (String × List String)) (db : ChatDatabase) (now : Nat) :
    ChatDatabase × List TurnEvent :=
  match turns with
  | [] => (db, [])
  | t :: rest =>
    let r := handle_message_content cfg ctx t.1 t.2 db now
    let r2 := run_turns cfg ctx rest r.2.1 now
    (r2.1, r.2.2 ++ r2.2)

/-- Once a session holds at least one message, no later turn ever updates the
title again. -/
theorem run_turns_no_title (cfg : Config) (ctx : SessionContext)
    (turns : List (String × List String)) (db : ChatDatabase) (now : Nat)
    (hvalid : (truthy ctx.session_id && truthy ctx.thread_id &&
      truthy ctx.assistant_id) = true)
    (hpos : 0 < db.get_message_count (ctx.session_id.getD "")) :
    ((run_turns cfg ctx turns db now).2).filter (fun e => e.isTitleUpdate) = [] := by
  induction turns generalizing db with
  | nil => rfl
  | cons t rest ih =>
    simp only [run_turns, List.filter_append]
    rw [handle_turn_title_events cfg ctx t.1 t.2 db now hvalid]
    rw [if_neg (by omega)]
    rw [ih _ (by
      rw [handle_turn_message_count cfg ctx t.1 t.2 db now hvalid]
      omega)]
    rfl

/-- Claim C4: over any run of turns on a fresh session, the title is updated
exactly once — the single title event of the whole trace carries the first
user message truncated to the configured length — and within the first turn
that event comes last, immediately after the second message was persisted;
later turns never update the title again. -/
theorem chat_title_assigned_once (cfg : Config) (ctx : SessionContext)
    (db : ChatDatabase) (now : Nat) (first : String × List String)
    (rest : List (String × List String))
    (hvalid : (truthy ctx.session_id && truthy ctx.thread_id &&
      truthy ctx.assistant_id) = true)
    (hfresh : db.get_message_count (ctx.session_id.getD "") = 0) :
    ((run_turns cfg ctx (first :: rest) db now).2).filter
        (fun e => e.isTitleUpdate) =
      [TurnEvent.dbUpdateTitle (ctx.session_id.getD "")
        (truncate_text first.1 (cfg.chat_title_length : Int))] ∧
    ((handle_message_content cfg ctx first.1 first.2 db now).2.2).getLast? =
      some (TurnEvent.dbUpdateTitle (ctx.session_id.getD "")
        (truncate_text first.1 (cfg.chat_title_length : Int))) := by
  constructor
  · simp only [run_turns, List.filter_append]
    rw [handle_turn_title_events cfg ctx first.1 first.2 db now hvalid, if_pos hfresh]
    rw [run_turns_no_title cfg ctx rest _ now hvalid (by
      rw [handle_turn_message_count cfg ctx first.1 first.2 db now hvalid]
      omega)]
    rfl
  · unfold handle_message_content
    rw [hvalid]
    simp only [if_true]
    rw [get_message_count_update_activity, get_message_count_save_message,
      get_message_count_save_message, hfresh]
    simp only [show ((0 : Nat) + 1 + 1 == 2) = true from rfl, if_true]
    exact List.getLast?_concat _

/-- Witness for C4: a fresh two-turn session produces exactly one title
event, carrying the first user message. -/
theorem chat_title_assigned_once_witness :
    ((run_turns defaultConfig
      { session_id := some "s", user_id := some "u", thread_id := some "t",
        assistant_id := some "a" }
      [("hello world", ["ok"]), ("more", ["x"])]
      { documents := [], chat_sessions := [], messages := [], vector_stores := [] }
      4).2).filter (fun e => e.isTitleUpdate) =
      [TurnEvent.dbUpdateTitle "s"
        (truncate_text "hello world" (defaultConfig.chat_title_length : Int))] :=
  (chat_title_assigned_once defaultConfig
    { session_id := some "s", user_id := some "u", thread_id := some "t",
      assistant_id := some "a" }
    { documents := [], chat_sessions := [], messages := [], vector_stores := [] }
    4 ("hello world", ["ok"]) [("more", ["x"])] (by decide) rfl).1

theorem take_append_le (k : Nat) (l₁ l₂ : List α) (h : k ≤ l₁.length) :
    (l₁ ++ l₂).take k = l₁.take k := by
  induction l₁ generalizing k with
  | nil =>
    have hk : k = 0 := Nat.le_zero.mp h
    subst hk
    rfl
  | cons a t ih =>
    cases k with
    | zero => rfl
    | succ k2 =>
      simp only [List.cons_append, List.take_succ_cons]
      rw [ih k2 (Nat.le_of_succ_le_succ h)]

theorem filter_delta_map (stream : List String) :
    (stream.map TurnEvent.streamDelta).filter (fun e => e.isStreamDelta) =
      stream.map TurnEvent.streamDelta := by
  induction stream with
  | nil => rfl
  | cons s ss ih => simp [TurnEvent.isStreamDelta, ih]

/-- On a valid context the event trace of a turn is the user save, the two
remote submissions, the received stream, the assistant save, and trailing
bookkeeping writes. -/
theorem handle_turn_events_shape (cfg : Config) (ctx : SessionContext)
    (content : String) (stream : List String) (db : ChatDatabase) (now : Nat)
    (hvalid : (truthy ctx.session_id && truthy ctx.thread_id &&
      truthy ctx.assistant_id) = true) :
    ∃ tail, (handle_message_content cfg ctx content stream db now).2.2 =
      (TurnEvent.dbSaveMessage (ctx.session_id.getD "") "user" content ::
       TurnEvent.remoteAppendMessage (ctx.thread_id.getD "") content ::
       TurnEvent.remoteStreamRun (ctx.thread_id.getD "") (ctx.assistant_id.getD "") ::
       stream.map TurnEvent.streamDelta) ++
      (TurnEvent.dbSaveMessage (ctx.session_id.getD "") "assistant"
        (String.join stream) :: tail) := by
  unfold handle_message_content
  rw [hvalid]
  simp only [if_true]
  split
  · exact ⟨[TurnEvent.dbUpdateActivity (ctx.session_id.getD ""),
      TurnEvent.dbUpdateTitle (ctx.session_id.getD "")
        (truncate_text content (cfg.chat_title_length : Int))], by simp⟩
  · exact ⟨[TurnEvent.dbUpdateActivity (ctx.session_id.getD "")], by simp⟩

theorem assistant_save_not_mem_front (sid content resp tid aid : String)
    (stream : List String) :
    TurnEvent.dbSaveMessage sid "assistant" resp ∉
      (TurnEvent.dbSaveMessage sid "user" content ::
       TurnEvent.remoteAppendMessage tid content ::
       TurnEvent.remoteStreamRun tid aid ::
       stream.map TurnEvent.streamDelta) := by
  intro h
  rcases List.mem_cons.mp h with h1 | h
  · injection h1 with ha hb hc
    exact absurd hb (by decide)
  rcases List.mem_cons.mp h with h1 | h
  · cases h1
  rcases List.mem_cons.mp h with h1 | h
  · cases h1
  obtain ⟨d, _, hd⟩ := List.mem_map.mp h
  cases hd

/-- Claim C7: within a valid turn, the user message save is the very first
event (so it precedes every remote interaction); the assistant reply save
sits exactly after the whole received stream; no prefix cut before or inside
the stream contains the assistant save, while every nonempty prefix contains
the user save; and the prefix up to the assistant save contains the entire
stream — hence an execution aborted mid-stream has persisted the user turn
and no matching assistant turn. -/
theorem turn_persistence_order (cfg : Config) (ctx : SessionContext)
    (content : String) (stream : List String) (db : ChatDatabase) (now : Nat)
    (hvalid : (truthy ctx.session_id && truthy ctx.thread_id &&
      truthy ctx.assistant_id) = true) :
    (handle_message_content cfg ctx content stream db now).2.2[0]? =
      some (TurnEvent.dbSaveMessage (ctx.session_id.getD "") "user" content) ∧
    (∀ k, 0 < k →
      TurnEvent.dbSaveMessage (ctx.session_id.getD "") "user" content ∈
        (handle_message_content cfg ctx content stream db now).2.2.take k) ∧
    (handle_message_content cfg ctx content stream db now).2.2[3 + stream.length]? =
      some (TurnEvent.dbSaveMessage (ctx.session_id.getD "") "assistant"
        (String.join stream)) ∧
    (∀ k, k ≤ 3 + stream.length →
      TurnEvent.dbSaveMessage (ctx.session_id.getD "") "assistant"
        (String.join stream) ∉
        (handle_message_content cfg ctx content stream db now).2.2.take k) ∧
    ((handle_message_content cfg ctx content stream db now).2.2.take
        (3 + stream.length)).filter (fun e => e.isStreamDelta) =
      stream.map TurnEvent.streamDelta := by
  obtain ⟨tail, hevs⟩ :=
    handle_turn_events_shape cfg ctx content stream db now hvalid
  have hlen : (TurnEvent.dbSaveMessage (ctx.session_id.getD "") "user" content ::
      TurnEvent.remoteAppendMessage (ctx.thread_id.getD "") content ::
      TurnEvent.remoteStreamRun (ctx.thread_id.getD "") (ctx.assistant_id.getD "") ::
      stream.map TurnEvent.streamDelta).length = 3 + stream.length := by
    simp only [List.length_cons, List.length_map]
    omega
  refine ⟨?_, ?_, ?_, ?_, ?_⟩
  · rw [hevs]
    rfl
  · intro k hk
    rw [hevs]
    cases k with
    | zero => omega
    | succ k2 =>
      simp only [List.cons_append, List.take_succ_cons]
      exact List.mem_cons_self _ _
  · rw [hevs, List.getElem?_append_right (by rw [hlen])]
    rw [hlen]
    simp
  · intro k hk
    rw [hevs, take_append_le k _ _ (by rw [hlen]; exact hk)]
    intro hmem
    exact assistant_save_not_mem_front (ctx.session_id.getD "") content
      (String.join stream) (ctx.thread_id.getD "") (ctx.assistant_id.getD "") stream
      ((List.take_sublist k _).subset hmem)
  · rw [hevs, take_append_le _ _ _ (Nat.le_of_eq hlen.symm), ← hlen, List.take_length]
    simp only [List.filter_cons, TurnEvent.isStreamDelta]
    simp [filter_delta_map]

/-- Witness for C7: a concrete turn with a two-fragment stream has the user
save first, the assistant save at position five, and no assistant save in the
prefix that stops inside the stream. -/
theorem turn_persistence_order_witness :
    (handle_message_content defaultConfig
      { session_id := some "s", user_id := some "u", thread_id := some "t",
        assistant_id := some "a" }
      "hi" ["x", "y"]
      { documents := [], chat_sessions := [], messages := [], vector_stores := [] }
      9).2.2[0]? = some (TurnEvent.dbSaveMessage "s" "user" "hi") ∧
    TurnEvent.dbSaveMessage "s" "user" "hi" ∈
      (handle_message_content defaultConfig
        { session_id := some "s", user_id := some "u", thread_id := some "t",
          assistant_id := some "a" }
        "hi" ["x", "y"]
        { documents := [], chat_sessions := [], messages := [], vector_stores := [] }
        9).2.2.take 2 ∧
    TurnEvent.dbSaveMessage "s" "assistant" (String.join ["x", "y"]) ∉
      (handle_message_content defaultConfig
        { session_id := some "s", user_id := some "u", thread_id := some "t",
          assistant_id := some "a" }
        "hi" ["x", "y"]
        { documents := [], chat_sessions := [], messages := [], vector_stores := [] }
        9).2.2.take 4 := by
  have h := turn_persistence_order defaultConfig
    { session_id := some "s", user_id := some "u", thread_id := some "t",
      assistant_id := some "a" }
    "hi" ["x", "y"]
    { documents := [], chat_sessions := [], messages := [], vector_stores := [] }
    9 (by decide)
  exact ⟨h.1, h.2.1 2 (by decide), h.2.2.2.1 4 (by decide)⟩
